import Mathlib

/-!
Shallow embedding of the grid stealth game implemented in `src/main.py`
(a Flask web game).  Only the pure game logic is embedded: the drone
patrol machinery (`DroneGroup`, `GROUP_DEFINITIONS`, `Drone`, `Drone.move`),
game setup (`init_game`, modelling the source function named
`initialize_game`), and the `/move` request handler (`move`).  Database
writes and rendering are outside the model; `print` warnings are modelled
by counters, and Python's `random.randint` draws are modelled by an
arbitrary integer stream `rng : Nat → Int` (the theorems hold for every
stream, in particular for the seeded one).
-/

/-- A grid cell `(row, col)`, matching the `(r, c)` integer tuples of the source. -/
abbrev Cell := Int × Int

/-- Python list indexing `l[i]`: non-negative indices count from the front,
negative indices count from the back, and `none` marks the cases where
Python raises `IndexError`. -/
def pyGet (l : List Cell) (i : Int) : Option Cell :=
  if 0 ≤ i ∧ i < l.length then l.get? i.toNat
  else if -(l.length : Int) ≤ i ∧ i < 0 then l.get? (i + l.length).toNat
  else none

/-- A drone group: `symbol`, `sector_shape` and `patrol_route` templates of
relative offsets, as in the source class `DroneGroup` (the `drones` list held
by the Python object is unused by the embedded logic). -/
structure DroneGroup where
  symbol : String
  sector_shape : List Cell
  patrol_route : List Cell
deriving DecidableEq

/-- The five globally defined drone groups (`GROUP_DEFINITIONS` in the source). -/
def GROUP_DEFINITIONS : List DroneGroup :=
  [ { symbol := "T1"
      sector_shape := [(0, 0), (0, 1), (1, 0), (1, 1)]
      patrol_route := [(0, 0), (0, 1), (1, 1), (1, 0)] },
    { symbol := "T2"
      sector_shape := [(0, 0), (0, 1), (0, 2)]
      patrol_route := [(0, 0), (0, 1), (0, 2), (0, 1)] },
    { symbol := "T3"
      sector_shape := [(0, 0), (1, 0), (2, 0)]
      patrol_route := [(0, 0), (1, 0), (2, 0), (1, 0)] },
    { symbol := "T4"
      sector_shape := [(0, 0), (1, 0), (1, 1)]
      patrol_route := [(0, 0), (1, 0), (1, 1), (1, 0)] },
    { symbol := "T5"
      sector_shape := [(0, 1), (1, 0), (1, 1), (1, 2)]
      patrol_route := [(1, 0), (1, 1), (1, 2), (0, 1), (1, 1)] } ]

/-- `Drone.calculate_sector`: absolute cells of the drone's sector, the
relative shape shifted by the sector origin.  (The source stores a Python
set; membership is what every use needs, so a list is kept.) -/
def calculate_sector (sector_origin : Cell) (sector_shape : List Cell) : List Cell :=
  sector_shape.map (fun rel_pos => (sector_origin.1 + rel_pos.1, sector_origin.2 + rel_pos.2))

/-- `Drone.calculate_patrol_route`: shift the group's route template by the
sector origin; any cell that leaves the grid is clamped per axis via
`max(0, min(GRID - 1, coord))`. -/
def calculate_patrol_route (sector_origin : Cell) (route_tpl : List Cell)
    (GRID_ROWS GRID_COLS : Int) : List Cell :=
  route_tpl.map (fun rel_pos =>
    let abs_pos : Cell := (sector_origin.1 + rel_pos.1, sector_origin.2 + rel_pos.2)
    if 0 ≤ abs_pos.1 ∧ abs_pos.1 < GRID_ROWS ∧ 0 ≤ abs_pos.2 ∧ abs_pos.2 < GRID_COLS then
      abs_pos
    else
      (max 0 (min (GRID_ROWS - 1) abs_pos.1), max 0 (min (GRID_COLS - 1) abs_pos.2)))

/-- The mutable state of a drone, mirroring the fields of the source class
`Drone` used by the game logic.  The Python field `route_length` always
equals `len(patrol_route)` (it is set from it in `__init__` and never
written again), so it is represented by `patrol_route.length`. -/
structure Drone where
  symbol : String
  sector_origin : Cell
  sector : List Cell
  patrol_route : List Cell
  route_index : Int
  direction : Int
  position : Cell
deriving DecidableEq

/-- `Drone.__init__`: build a drone from its group, sector origin and grid
size.  `position = patrol_route[0]`; the `getD` default is unreachable for
the non-empty routes of `GROUP_DEFINITIONS` (Python would raise on an empty
route). -/
def mkDrone (group : DroneGroup) (sector_origin : Cell) (GRID_ROWS GRID_COLS : Int) : Drone :=
  let route := calculate_patrol_route sector_origin group.patrol_route GRID_ROWS GRID_COLS
  { symbol := group.symbol
    sector_origin := sector_origin
    sector := calculate_sector sector_origin group.sector_shape
    patrol_route := route
    route_index := 0
    direction := 1
    position := (pyGet route 0).getD (0, 0) }

/-- `Drone.move`: advance one step along the patrol route, reversing
direction when the next index would leave `[0, route_length - 1]`.
A route of length ≤ 1 is a no-op (the source prints a warning and returns;
warnings are counted by `Drone.moveWarnings`).  The `getD` default stands
for the states where Python's `patrol_route[route_index]` would raise. -/
def Drone.move (d : Drone) : Drone :=
  if d.patrol_route.length ≤ 1 then d
  else
    let next_index := d.route_index + d.direction
    if (d.patrol_route.length : Int) ≤ next_index ∨ next_index < 0 then
      let next_index' := d.route_index + (-d.direction)
      { d with direction := -d.direction
               route_index := next_index'
               position := (pyGet d.patrol_route next_index').getD d.position }
    else
      { d with route_index := next_index
               position := (pyGet d.patrol_route next_index).getD d.position }

/-- Number of warnings printed by one `Drone.move` call: exactly one when
the route is degeneric (length ≤ 1), none otherwise. -/
def Drone.moveWarnings (d : Drone) : Nat :=
  if d.patrol_route.length ≤ 1 then 1 else 0

/-- Total number of warnings printed across `n` consecutive `Drone.move`
calls starting from drone state `d`. -/
def warningsAcross (d : Drone) : Nat → Nat
  | 0 => 0
  | n + 1 => d.moveWarnings + warningsAcross d.move n

/-- One drone entry of the session dict (`session['drones']` in the source):
the serializable fields a drone is round-tripped through between requests. -/
structure SessDrone where
  symbol : String
  position : Cell
  route_index : Int
  direction : Int
  sector_origin : Cell
deriving DecidableEq

/-- The per-session game state read and written by the `/move` handler. -/
structure GameState where
  grid_rows : Int
  grid_cols : Int
  player_start_pos : Cell
  player_pos : Cell
  end_pos : Cell
  turn : Nat
  max_turns : Nat
  drones : List SessDrone
  game_over : Bool
  won : Bool
  message : String
deriving DecidableEq

/-- The `DIRECTIONS` dict of the source, as an association list. -/
def DIRECTIONS : List (String × (Int × Int)) :=
  [("UP", (-1, 0)), ("DOWN", (1, 0)), ("LEFT", (0, -1)), ("RIGHT", (0, 1)), ("STAY", (0, 0))]

/-- `DIRECTIONS.get(key)`. -/
def dirLookup (key : String) : Option (Int × Int) :=
  (DIRECTIONS.find? (fun p => p.1 == key)).map (fun p => p.2)

/-- Python's `str.upper()` on the command strings: uppercase every character
(kernel-computable form of `String.toUpper`). -/
def pyUpper (s : String) : String := String.mk (s.data.map Char.toUpper)

/-- `DIRECTIONS.get(move.upper(), DIRECTIONS['STAY'])` of the handler. -/
def moveDirOf (m : String) : Int × Int :=
  (dirLookup (pyUpper m)).getD (0, 0)

/-- The player's tentative new position `(new_r, new_c)` computed by the handler. -/
def newPosOf (s : GameState) (m : String) : Cell :=
  (s.player_pos.1 + (moveDirOf m).1, s.player_pos.2 + (moveDirOf m).2)

/-- `is_valid_move_from_start_box` from the source: note that it receives the
raw (not uppercased) move string. -/
def is_valid_move_from_start_box (m : String) (PLAYER_START_POS : Cell)
    (GRID_ROWS GRID_COLS : Int) : Bool :=
  if m = "STAY" then true
  else if PLAYER_START_POS.1 = -1 then m == "DOWN"
  else if PLAYER_START_POS.1 = GRID_ROWS then m == "UP"
  else if PLAYER_START_POS.2 = -1 then m == "RIGHT"
  else if PLAYER_START_POS.2 = GRID_COLS then m == "LEFT"
  else false

/-- Drone reconstruction used by `/move` and `/game_state`: look the symbol up
in the groups rebuilt from `GROUP_DEFINITIONS` (entries with an unknown symbol
are skipped), rebuild the `Drone` from the group and sector origin, then
overwrite `position`, `route_index` and `direction` from the session entry. -/
def reconstructDrone (GRID_ROWS GRID_COLS : Int) (sd : SessDrone) : Option Drone :=
  (GROUP_DEFINITIONS.find? (fun g => g.symbol == sd.symbol)).map (fun group =>
    { mkDrone group sd.sector_origin GRID_ROWS GRID_COLS with
        position := sd.position
        route_index := sd.route_index
        direction := sd.direction })

/-- All session drones reconstructed in order. -/
def reconstructDrones (GRID_ROWS GRID_COLS : Int) (sds : List SessDrone) : List Drone :=
  sds.filterMap (reconstructDrone GRID_ROWS GRID_COLS)

/-- Writing a drone back into `session['drones']`. -/
def serializeDrone (d : Drone) : SessDrone :=
  { symbol := d.symbol
    position := d.position
    route_index := d.route_index
    direction := d.direction
    sector_origin := d.sector_origin }

/-- `is_collision` from the source: is the player on some drone's position? -/
def is_collision (player_pos : Cell) (drones : List Drone) : Bool :=
  drones.any (fun d => d.position == player_pos)

/-- The drones after the "Move drones" loop of the handler. -/
def advancedDrones (s : GameState) : List Drone :=
  (reconstructDrones s.grid_rows s.grid_cols s.drones).map Drone.move

/-- Which response the `/move` handler produced (each variant corresponds to
one `return jsonify(...)` site of the source). -/
inductive Outcome where
  | alreadyOver
  | rejected
  | caughtBefore
  | caughtAfter
  | won
  | timedOut
  | continuing
deriving DecidableEq

/-- Message strings of the handler. -/
def MSG_INVALID_FROM_START : String := "🚫 Invalid move from the start position."

/-- Message for an invalid move back into the start box. -/
def MSG_INVALID_INTO_START : String := "🚫 Invalid move into the start position."

/-- Message for an out-of-bounds move. -/
def MSG_OUT_OF_BOUNDS : String := "🚫 Move out of bounds. Try again."

/-- Message when the player is caught by a drone. -/
def MSG_CAUGHT : String :=
  "A gunshot rings out in the distnace. You turn the radio frequency preemptively."

/-- Message when the player reaches the end position. -/
def MSG_WON : String := "You've reached your target."

/-- Message when the turn limit is reached. -/
def MSG_TIMEOUT : String := "Drone tracking goes dark. There's nothing more you can do to help."

/-- The `/move` handler of the source (the game-logic part: session
mutations and which `return jsonify` site fires; database statistics are
outside the model).  Returns the updated session state and the outcome. -/
def move (s : GameState) (m : String) : GameState × Outcome :=
  if s.game_over then (s, Outcome.alreadyOver)
  else
    let newPos := newPosOf s m
    if s.player_pos = s.player_start_pos ∧
        is_valid_move_from_start_box m s.player_start_pos s.grid_rows s.grid_cols = false then
      ({ s with message := MSG_INVALID_FROM_START }, Outcome.rejected)
    else if newPos = s.player_start_pos ∧
        is_valid_move_from_start_box m s.player_start_pos s.grid_rows s.grid_cols = false then
      ({ s with message := MSG_INVALID_INTO_START }, Outcome.rejected)
    else if ¬(-1 ≤ newPos.1 ∧ newPos.1 < s.grid_rows) ∨
        ¬(-1 ≤ newPos.2 ∧ newPos.2 < s.grid_cols) then
      ({ s with message := MSG_OUT_OF_BOUNDS }, Outcome.rejected)
    else
      let ds := reconstructDrones s.grid_rows s.grid_cols s.drones
      if (0 ≤ newPos.1 ∧ newPos.1 < s.grid_rows ∧ 0 ≤ newPos.2 ∧ newPos.2 < s.grid_cols) ∧
          is_collision newPos ds then
        ({ s with player_pos := newPos, game_over := true, won := false,
                  message := MSG_CAUGHT },
         Outcome.caughtBefore)
      else
        let moved := ds.map Drone.move
        if (0 ≤ newPos.1 ∧ newPos.1 < s.grid_rows ∧ 0 ≤ newPos.2 ∧ newPos.2 < s.grid_cols) ∧
            is_collision newPos moved then
          ({ s with player_pos := newPos, drones := moved.map serializeDrone,
                    game_over := true, won := false, message := MSG_CAUGHT },
           Outcome.caughtAfter)
        else if newPos = s.end_pos then
          ({ s with player_pos := newPos, drones := moved.map serializeDrone,
                    game_over := true, won := true, message := MSG_WON },
           Outcome.won)
        else if s.max_turns ≤ s.turn + 1 then
          ({ s with player_pos := newPos, drones := moved.map serializeDrone,
                    turn := s.turn + 1, game_over := true, won := false,
                    message := MSG_TIMEOUT },
           Outcome.timedOut)
        else
          ({ s with player_pos := newPos, drones := moved.map serializeDrone,
                    turn := s.turn + 1, message := "" },
           Outcome.continuing)

/-- `Drone.move` never changes the patrol route. -/
theorem Drone.move_patrol_route (d : Drone) : d.move.patrol_route = d.patrol_route := by
  simp only [Drone.move]
  split_ifs <;> rfl

/-- `pyGet` at an in-range non-negative index returns `some` of the list entry. -/
theorem pyGet_in_range (l : List Cell) (i : Int) (h0 : 0 ≤ i) (h1 : i < l.length) :
    ∃ h : i.toNat < l.length, pyGet l i = some (l.get ⟨i.toNat, h⟩) := by
  have hn : i.toNat < l.length := by omega
  refine ⟨hn, ?_⟩
  unfold pyGet
  rw [if_pos ⟨h0, h1⟩, List.get?_eq_get hn]

/-- `getD` after an in-range `pyGet` recovers the `some` form. -/
theorem pyGet_getD_some (l : List Cell) (i : Int) (dflt : Cell)
    (h0 : 0 ≤ i) (h1 : i < l.length) :
    pyGet l i = some ((pyGet l i).getD dflt) := by
  obtain ⟨h, he⟩ := pyGet_in_range l i h0 h1
  rw [he]
  rfl

/-- The route-index/direction dynamics of `Drone.move` for routes of length
`L ≥ 2`, on the pair `(route_index, direction)`. -/
def stepIdx (L : Int) (s : Int × Int) : Int × Int :=
  if L ≤ s.1 + s.2 ∨ s.1 + s.2 < 0 then (s.1 - s.2, -s.2) else (s.1 + s.2, s.2)

/-- For a route of length ≥ 2, `Drone.move` acts on `(route_index, direction)`
exactly as `stepIdx`. -/
theorem Drone.move_idx_dir (d : Drone) (h2 : 2 ≤ d.patrol_route.length) :
    (d.move.route_index, d.move.direction)
      = stepIdx (d.patrol_route.length) (d.route_index, d.direction) := by
  have h1 : ¬ d.patrol_route.length ≤ 1 := by omega
  simp only [Drone.move, stepIdx, if_neg h1]
  split_ifs with h
  · simp [sub_eq_add_neg]
  · simp

/-- Iterating `Drone.move` follows `stepIdx` on `(route_index, direction)` and
keeps the patrol route. -/
theorem Drone.move_iterate_idx (d : Drone) (h2 : 2 ≤ d.patrol_route.length) (n : Nat) :
    (Drone.move^[n] d).patrol_route = d.patrol_route ∧
      ((Drone.move^[n] d).route_index, (Drone.move^[n] d).direction)
        = (stepIdx (d.patrol_route.length))^[n] (d.route_index, d.direction) := by
  induction n with
  | zero => exact ⟨rfl, rfl⟩
  | succ n ih =>
    obtain ⟨hroute, hpair⟩ := ih
    constructor
    · rw [Function.iterate_succ_apply', Drone.move_patrol_route, hroute]
    · rw [Function.iterate_succ_apply', Function.iterate_succ_apply']
      have h2' : 2 ≤ (Drone.move^[n] d).patrol_route.length := by rw [hroute]; exact h2
      rw [Drone.move_idx_dir _ h2', hroute, hpair]

/-- Running `stepIdx` upward: `j` steps with direction `+1` starting at `i`. -/
theorem stepIdx_up_run (L : Int) (i : Int) (j : Nat) (hi : 0 ≤ i)
    (h : i + j ≤ L - 1) : (stepIdx L)^[j] (i, 1) = (i + j, 1) := by
  induction j generalizing i with
  | zero => simp
  | succ j ih =>
    rw [Function.iterate_succ_apply]
    have hstep : stepIdx L (i, 1) = (i + 1, 1) := by
      unfold stepIdx
      split_ifs with hc
      · exfalso
        have hc' : L ≤ i + 1 ∨ i + 1 < 0 := hc
        push_cast at h
        omega
      · rfl
    rw [hstep, ih (i + 1) (by omega) (by push_cast at h ⊢; omega)]
    simp only [Prod.mk.injEq]
    exact ⟨by push_cast; ring, trivial⟩

/-- Running `stepIdx` downward: `j` steps with direction `-1` starting at `i`. -/
theorem stepIdx_down_run (L : Int) (i : Int) (j : Nat) (hij : (j : Int) ≤ i)
    (hi : i ≤ L - 1) : (stepIdx L)^[j] (i, -1) = (i - j, -1) := by
  induction j generalizing i with
  | zero => simp
  | succ j ih =>
    rw [Function.iterate_succ_apply]
    have hstep : stepIdx L (i, -1) = (i - 1, -1) := by
      unfold stepIdx
      split_ifs with hc
      · exfalso
        have hc' : L ≤ i + -1 ∨ i + -1 < 0 := hc
        push_cast at hij
        omega
      · show (i + -1, (-1 : Int)) = (i - 1, -1)
        rw [← sub_eq_add_neg]
    rw [hstep, ih (i - 1) (by push_cast at hij ⊢; omega) (by omega)]
    simp only [Prod.mk.injEq]
    exact ⟨by push_cast; ring, trivial⟩

/-- One `stepIdx` step at the top end of the route. -/
theorem stepIdx_top (L : Int) (_h2 : 2 ≤ L) : stepIdx L (L - 1, 1) = (L - 2, -1) := by
  unfold stepIdx
  split_ifs with hc
  · show (L - 1 - 1, (-1 : Int)) = (L - 2, -1)
    rw [show L - 1 - 1 = L - 2 from by omega]
  · exact absurd (Or.inl (show L ≤ L - 1 + 1 by omega)) hc

/-- One `stepIdx` step at the bottom end of the route, moving downward. -/
theorem stepIdx_bottom (L : Int) (_h2 : 2 ≤ L) : stepIdx L ((0 : Int), -1) = (1, 1) := by
  unfold stepIdx
  split_ifs with hc
  · show ((0 : Int) - -1, -(-1 : Int)) = (1, 1)
    norm_num
  · exact absurd (Or.inr (show (0 : Int) + -1 < 0 by omega)) hc

/-- The bounce dynamics returns to index 0 after `2 * (L - 1)` steps. -/
theorem stepIdx_period (L : Nat) (h2 : 2 ≤ L) (dir : Int) (hdir : dir = 1 ∨ dir = -1) :
    ((stepIdx (L : Int))^[2 * (L - 1)] ((0 : Int), dir)).1 = 0 := by
  rcases hdir with hd | hd <;> subst hd
  · rw [show 2 * (L - 1) = (L - 2) + (1 + (L - 1)) from by omega,
      Function.iterate_add_apply, Function.iterate_add_apply, Function.iterate_one,
      stepIdx_up_run (L : Int) 0 (L - 1) le_rfl (by omega),
      show (0 : Int) + ((L - 1 : Nat) : Int) = (L : Int) - 1 from by omega,
      stepIdx_top (L : Int) (by omega),
      stepIdx_down_run (L : Int) ((L : Int) - 2) (L - 2) (by omega) (by omega)]
    show (L : Int) - 2 - ((L - 2 : Nat) : Int) = 0
    omega
  · rw [show 2 * (L - 1) = (L - 2) + (1 + ((L - 2) + 1)) from by omega,
      Function.iterate_add_apply, Function.iterate_add_apply, Function.iterate_add_apply,
      Function.iterate_one,
      stepIdx_bottom (L : Int) (by omega),
      stepIdx_up_run (L : Int) 1 (L - 2) (by omega) (by omega),
      show (1 : Int) + ((L - 2 : Nat) : Int) = (L : Int) - 1 from by omega,
      stepIdx_top (L : Int) (by omega),
      stepIdx_down_run (L : Int) ((L : Int) - 2) (L - 2) (by omega) (by omega)]
    show (L : Int) - 2 - ((L - 2 : Nat) : Int) = 0
    omega

/-- C2: for a drone whose route has length ≥ 2, with `routeIndex` in
`[0, length-1]` and `direction` in `{+1, -1}`, one advance sets
`next = routeIndex + direction`; if `next` falls outside `[0, length-1]`
the direction is flipped first and `next = routeIndex + (flipped direction)`;
the resulting `routeIndex` is `next` (always back in `[0, length-1]` — a
bounce, never a modulo wraparound) and `position` becomes
`route[routeIndex]`. -/
theorem drone_move_bounce_rule (d : Drone) (hL : 2 ≤ d.patrol_route.length)
    (hidx : 0 ≤ d.route_index ∧ d.route_index < (d.patrol_route.length : Int))
    (hdir : d.direction = 1 ∨ d.direction = -1) :
    (if (d.patrol_route.length : Int) ≤ d.route_index + d.direction ∨
        d.route_index + d.direction < 0 then
      d.move.direction = -d.direction ∧
        d.move.route_index = d.route_index + (-d.direction)
    else
      d.move.direction = d.direction ∧
        d.move.route_index = d.route_index + d.direction) ∧
    (0 ≤ d.move.route_index ∧ d.move.route_index < (d.patrol_route.length : Int)) ∧
    pyGet d.patrol_route d.move.route_index = some d.move.position := by
  have h1 : ¬ d.patrol_route.length ≤ 1 := by omega
  by_cases hg : (d.patrol_route.length : Int) ≤ d.route_index + d.direction ∨
      d.route_index + d.direction < 0
  · have hmove : d.move =
        { d with direction := -d.direction
                 route_index := d.route_index + -d.direction
                 position := (pyGet d.patrol_route (d.route_index + -d.direction)).getD d.position } := by
      simp only [Drone.move, if_neg h1, if_pos hg]
    have hrange : 0 ≤ d.route_index + -d.direction ∧
        d.route_index + -d.direction < (d.patrol_route.length : Int) := by
      rcases hdir with hd | hd <;> rw [hd] at hg ⊢ <;> rcases hg with hg | hg <;>
        constructor <;> omega
    rw [if_pos hg, hmove]
    exact ⟨⟨rfl, rfl⟩, hrange, pyGet_getD_some _ _ _ hrange.1 hrange.2⟩
  · have hmove : d.move =
        { d with route_index := d.route_index + d.direction
                 position := (pyGet d.patrol_route (d.route_index + d.direction)).getD d.position } := by
      simp only [Drone.move, if_neg h1, if_neg hg]
    have hrange : 0 ≤ d.route_index + d.direction ∧
        d.route_index + d.direction < (d.patrol_route.length : Int) := by
      push_neg at hg
      exact ⟨by omega, by omega⟩
    rw [if_neg hg, hmove]
    exact ⟨⟨rfl, rfl⟩, hrange, pyGet_getD_some _ _ _ hrange.1 hrange.2⟩

/-- A concrete drone at the top end of a length-3 route, for the C2 witness. -/
def c2drone : Drone :=
  { symbol := "T3", sector_origin := (0, 0), sector := [(0, 0), (1, 0), (2, 0)],
    patrol_route := [(0, 0), (1, 0), (2, 0)], route_index := 2, direction := 1,
    position := (2, 0) }

/-- C2 witness: the bounce rule evaluated on `c2drone` (index 2, direction +1,
route length 3): the advance flips the direction and steps back to index 1. -/
theorem drone_move_bounce_rule_witness :
    c2drone.move.route_index = 1 ∧ c2drone.move.direction = -1 ∧
      pyGet c2drone.patrol_route c2drone.move.route_index = some c2drone.move.position := by
  have h := drone_move_bounce_rule c2drone (by decide) (by decide) (Or.inl rfl)
  revert h
  decide

/-- C3: for any route of length `L ≥ 2`, a drone starting at `routeIndex = 0`
with either initial direction is back at `routeIndex = 0` after exactly
`2 * (L - 1)` consecutive advances. -/
theorem drone_bounce_period (d : Drone) (L : Nat) (hL : d.patrol_route.length = L)
    (h2 : 2 ≤ L) (h0 : d.route_index = 0) (hdir : d.direction = 1 ∨ d.direction = -1) :
    (Drone.move^[2 * (L - 1)] d).route_index = 0 := by
  have h2' : 2 ≤ d.patrol_route.length := by omega
  obtain ⟨-, hpair⟩ := Drone.move_iterate_idx d h2' (2 * (L - 1))
  have hfst : (Drone.move^[2 * (L - 1)] d).route_index
      = ((stepIdx (d.patrol_route.length : Int))^[2 * (L - 1)] (d.route_index, d.direction)).1 :=
    congrArg Prod.fst hpair
  rw [hL, h0] at hfst
  rw [hfst]
  exact stepIdx_period L h2 d.direction hdir

/-- A concrete drone at the start of a length-4 route, for the C3 witness. -/
def c3drone : Drone :=
  { symbol := "T2", sector_origin := (0, 0), sector := [(0, 0), (0, 1), (0, 2)],
    patrol_route := [(0, 0), (0, 1), (0, 2), (0, 1)], route_index := 0, direction := 1,
    position := (0, 0) }

/-- C3 witness: `c3drone` (route length 4, index 0, direction +1) is back at
index 0 after `2 * (4 - 1) = 6` advances. -/
theorem drone_bounce_period_witness :
    c3drone.patrol_route.length = 4 ∧ (Drone.move^[2 * (4 - 1)] c3drone).route_index = 0 :=
  ⟨by decide, drone_bounce_period c3drone 4 (by decide) (by decide) (by decide) (Or.inl rfl)⟩

/-- C8 (amended): a drone whose route has length ≤ 1 is left completely
unchanged by any number of advances, and one warning is printed on every
such call — `n` warnings across `n` calls, not a single warning in total. -/
theorem short_route_noop_warn_each_call (d : Drone) (n : Nat)
    (h : d.patrol_route.length ≤ 1) :
    Drone.move^[n] d = d ∧ warningsAcross d n = n := by
  have hfix : d.move = d := by
    unfold Drone.move
    rw [if_pos h]
  refine ⟨Function.iterate_fixed hfix n, ?_⟩
  induction n with
  | zero => rfl
  | succ n ih =>
    show d.moveWarnings + warningsAcross d.move n = n + 1
    rw [hfix, ih]
    unfold Drone.moveWarnings
    rw [if_pos h]
    omega

/-- A drone with the degenerate single-cell route `[(1, 1)]`, as in the C8
scenario. -/
def c8drone : Drone :=
  { symbol := "T1", sector_origin := (1, 1), sector := [(1, 1)],
    patrol_route := [(1, 1)], route_index := 0, direction := 1, position := (1, 1) }

/-- C8 witness: across 10 advances the single-cell drone never changes and 10
warnings are printed. -/
theorem short_route_noop_warn_each_call_witness :
    c8drone.patrol_route.length ≤ 1 ∧ Drone.move^[10] c8drone = c8drone ∧
      warningsAcross c8drone 10 = 10 :=
  ⟨by decide, (short_route_noop_warn_each_call c8drone 10 (by decide)).1,
    (short_route_noop_warn_each_call c8drone 10 (by decide)).2⟩

/-- C8 counterexample: 10 advances of the single-cell drone leave it unchanged
but print 10 warnings — not exactly one warning in total as claimed. -/
theorem short_route_warning_count_cx :
    Drone.move^[10] c8drone = c8drone ∧ warningsAcross c8drone 10 = 10 ∧
      warningsAcross c8drone 10 ≠ 1 := by
  decide

/-- C4: whenever the `/move` step rejects a move (invalid start-box exit,
invalid start-box entry, or out-of-bounds destination), nothing but the
surfaced message changes: the turn count, the player position and the
stored drone states (hence every drone's position, route_index and
direction) are exactly as before, and no turn is consumed. -/
theorem rejected_move_state_unchanged (s : GameState) (m : String)
    (h : (move s m).2 = Outcome.rejected) :
    (move s m).1.turn = s.turn ∧ (move s m).1.player_pos = s.player_pos ∧
      (move s m).1.drones = s.drones := by
  simp only [move] at h ⊢
  split_ifs at h ⊢ <;> simp_all

/-- A state whose only legal issue is a right move off the east edge, for the
C4 witness. -/
def c4state : GameState :=
  { grid_rows := 4, grid_cols := 4, player_start_pos := (-1, 0), player_pos := (2, 3),
    end_pos := (3, 3), turn := 5, max_turns := 200,
    drones := [{ symbol := "T1", position := (0, 1), route_index := 0, direction := 1,
                 sector_origin := (0, 0) }],
    game_over := false, won := false, message := "" }

/-- C4 witness: the move RIGHT from (2,3) on a 4×4 grid is rejected and the
state is unchanged. -/
theorem rejected_move_state_unchanged_witness :
    (move c4state "RIGHT").2 = Outcome.rejected ∧
      ((move c4state "RIGHT").1.turn = c4state.turn ∧
        (move c4state "RIGHT").1.player_pos = c4state.player_pos ∧
        (move c4state "RIGHT").1.drones = c4state.drones) :=
  ⟨by decide, rejected_move_state_unchanged c4state "RIGHT" (by decide)⟩

/-- C5 (amended): the boundary check of the handler accepts the whole
one-cell fringe at row `-1` and column `-1` regardless of where the start box
is, so UP from (0,0) is not rejected as out of bounds (see the
counterexample); a move is rejected when its destination leaves even the
adjusted bounds — destination row or column `< -1`, or `≥` the grid
dimension — and such a rejection changes nothing but the message and
consumes no turn. -/
theorem oob_destination_rejected (s : GameState) (m : String)
    (hover : s.game_over = false)
    (h : (newPosOf s m).1 < -1 ∨ s.grid_rows ≤ (newPosOf s m).1 ∨
      (newPosOf s m).2 < -1 ∨ s.grid_cols ≤ (newPosOf s m).2) :
    (move s m).2 = Outcome.rejected ∧ (move s m).1.turn = s.turn ∧
      (move s m).1.player_pos = s.player_pos ∧ (move s m).1.drones = s.drones := by
  have hno : ¬ (s.game_over = true) := by simp [hover]
  simp only [move]
  rw [if_neg hno]
  by_cases h1 : s.player_pos = s.player_start_pos ∧
      is_valid_move_from_start_box m s.player_start_pos s.grid_rows s.grid_cols = false
  · rw [if_pos h1]
    exact ⟨rfl, rfl, rfl, rfl⟩
  · rw [if_neg h1]
    by_cases h2 : newPosOf s m = s.player_start_pos ∧
        is_valid_move_from_start_box m s.player_start_pos s.grid_rows s.grid_cols = false
    · rw [if_pos h2]
      exact ⟨rfl, rfl, rfl, rfl⟩
    · rw [if_neg h2,
        if_pos (show ¬(-1 ≤ (newPosOf s m).1 ∧ (newPosOf s m).1 < s.grid_rows) ∨
          ¬(-1 ≤ (newPosOf s m).2 ∧ (newPosOf s m).2 < s.grid_cols) by omega)]
      exact ⟨rfl, rfl, rfl, rfl⟩

/-- The fixture of the C5 scenario: player at (0,0) of a 4×4 grid, start box
on the bottom edge. -/
def c5state : GameState :=
  { grid_rows := 4, grid_cols := 4, player_start_pos := (4, 1), player_pos := (0, 0),
    end_pos := (3, 3), turn := 0, max_turns := 200, drones := [],
    game_over := false, won := false, message := "" }

/-- C5 counterexample: the move UP from (0,0) is NOT rejected: the handler
accepts it, the player ends on (-1,0) outside the grid, and a turn is
consumed. -/
theorem up_from_origin_accepted_cx :
    (move c5state "UP").2 = Outcome.continuing ∧
      (move c5state "UP").1.player_pos = (-1, 0) ∧ (move c5state "UP").1.turn = 1 := by
  decide

/-- A state about to move DOWN off the south edge, for the C5 witness. -/
def c5wstate : GameState :=
  { grid_rows := 4, grid_cols := 4, player_start_pos := (-1, 0), player_pos := (3, 3),
    end_pos := (3, 2), turn := 7, max_turns := 200, drones := [],
    game_over := false, won := false, message := "" }

/-- C5 witness: DOWN from (3,3) has destination row 4 ≥ grid_rows and is
rejected with the state unchanged. -/
theorem oob_destination_rejected_witness :
    (c5wstate.grid_rows ≤ (newPosOf c5wstate "DOWN").1) ∧
      ((move c5wstate "DOWN").2 = Outcome.rejected ∧
        (move c5wstate "DOWN").1.turn = c5wstate.turn ∧
        (move c5wstate "DOWN").1.player_pos = c5wstate.player_pos ∧
        (move c5wstate "DOWN").1.drones = c5wstate.drones) :=
  ⟨by decide, oob_destination_rejected c5wstate "DOWN" rfl (Or.inr (Or.inl (by decide)))⟩

/-- C10 (amended): a `/move` request whose uppercased move string is not one
of UP, DOWN, LEFT, RIGHT, STAY is treated exactly as STAY — identical
response and state — provided the player is not sitting on the start-box
position; when the player is at the start box, such a request is instead
rejected as an invalid move from the start position, because the raw
(non-canonical) move string fails the start-box validation. -/
theorem unknown_move_acts_as_stay (s : GameState) (m : String)
    (hm : dirLookup (pyUpper m) = none) :
    (s.player_pos ≠ s.player_start_pos → move s m = move s "STAY") ∧
    (s.game_over = false → s.player_pos = s.player_start_pos →
      (move s m).2 = Outcome.rejected) := by
  have hdir : moveDirOf m = (0, 0) := by
    unfold moveDirOf
    rw [hm]
    rfl
  have hnew : newPosOf s m = s.player_pos := by
    unfold newPosOf
    rw [hdir]
    show (s.player_pos.1 + 0, s.player_pos.2 + 0) = s.player_pos
    simp
  have hnewS : newPosOf s "STAY" = s.player_pos := by
    unfold newPosOf
    show (s.player_pos.1 + 0, s.player_pos.2 + 0) = s.player_pos
    simp
  have hSTAY : m ≠ "STAY" := by
    intro h
    rw [h] at hm
    exact absurd hm (by decide)
  have hDOWN : m ≠ "DOWN" := by
    intro h
    rw [h] at hm
    exact absurd hm (by decide)
  have hUP : m ≠ "UP" := by
    intro h
    rw [h] at hm
    exact absurd hm (by decide)
  have hRIGHT : m ≠ "RIGHT" := by
    intro h
    rw [h] at hm
    exact absurd hm (by decide)
  have hLEFT : m ≠ "LEFT" := by
    intro h
    rw [h] at hm
    exact absurd hm (by decide)
  have hvalid : is_valid_move_from_start_box m s.player_start_pos s.grid_rows s.grid_cols
      = false := by
    unfold is_valid_move_from_start_box
    rw [if_neg hSTAY]
    split_ifs
    · exact beq_eq_false_iff_ne.mpr hDOWN
    · exact beq_eq_false_iff_ne.mpr hUP
    · exact beq_eq_false_iff_ne.mpr hRIGHT
    · exact beq_eq_false_iff_ne.mpr hLEFT
    · rfl
  constructor
  · intro hne
    by_cases hov : s.game_over = true
    · simp only [move, if_pos hov]
    · have h1m : ¬ (s.player_pos = s.player_start_pos ∧
          is_valid_move_from_start_box m s.player_start_pos s.grid_rows s.grid_cols = false) :=
        fun hc => hne hc.1
      have h1s : ¬ (s.player_pos = s.player_start_pos ∧
          is_valid_move_from_start_box "STAY" s.player_start_pos s.grid_rows s.grid_cols
            = false) :=
        fun hc => hne hc.1
      have h2m : ¬ (newPosOf s m = s.player_start_pos ∧
          is_valid_move_from_start_box m s.player_start_pos s.grid_rows s.grid_cols = false) :=
        fun hc => hne (hnew.symm.trans hc.1)
      have h2s : ¬ (newPosOf s "STAY" = s.player_start_pos ∧
          is_valid_move_from_start_box "STAY" s.player_start_pos s.grid_rows s.grid_cols
            = false) :=
        fun hc => hne (hnewS.symm.trans hc.1)
      simp only [move, if_neg hov, if_neg h1m, if_neg h1s, if_neg h2m, if_neg h2s]
      rw [hnew, hnewS]
  · intro hov hpos
    have hno : ¬ (s.game_over = true) := by simp [hov]
    have hcond : s.player_pos = s.player_start_pos ∧
        is_valid_move_from_start_box m s.player_start_pos s.grid_rows s.grid_cols = false :=
      ⟨hpos, hvalid⟩
    simp only [move, if_neg hno]
    rw [if_pos hcond]

/-- A state with the player away from the start box, for the C10 witness. -/
def c10wstate : GameState :=
  { grid_rows := 4, grid_cols := 4, player_start_pos := (-1, 0), player_pos := (1, 1),
    end_pos := (3, 3), turn := 2, max_turns := 200,
    drones := [{ symbol := "T1", position := (2, 2), route_index := 0, direction := 1,
                 sector_origin := (2, 2) }],
    game_over := false, won := false, message := "" }

/-- C10 witness: the unknown command "FOO" issued away from the start box is
processed exactly as STAY. -/
theorem unknown_move_acts_as_stay_witness :
    move c10wstate "FOO" = move c10wstate "STAY" :=
  (unknown_move_acts_as_stay c10wstate "FOO" (by decide)).1 (by decide)

/-- A state with the player sitting on the start box, for the C10
counterexample. -/
def c10state : GameState :=
  { grid_rows := 4, grid_cols := 4, player_start_pos := (-1, 0), player_pos := (-1, 0),
    end_pos := (3, 3), turn := 0, max_turns := 200,
    drones := [{ symbol := "T1", position := (2, 2), route_index := 0, direction := 1,
                 sector_origin := (2, 2) }],
    game_over := false, won := false, message := "" }

/-- C10 counterexample: the unknown command "XYZ" issued with the player at
the start box IS rejected (no drone advances, no turn is consumed), refuting
the claim that such requests are never rejected. -/
theorem unknown_move_at_start_rejected_cx :
    (move c10state "XYZ").2 = Outcome.rejected ∧ (move c10state "XYZ").1.turn = 0 ∧
      (move c10state "XYZ").1.drones = c10state.drones := by
  decide

/-- C1 (amended): in a game that is not already over, whose start position
lies outside the grid (the start-box design the handler assumes), and for a
canonical uppercase move command, if the proposed move lands the player
inside grid bounds on the current (pre-advance) position of some drone, then
the step reports the caught-before-advance outcome and the stored drone
states (position, route_index, direction) are unchanged. -/
theorem move_caught_before_sentinels_hold (s : GameState) (m : String)
    (hover : s.game_over = false)
    (hm : m = "UP" ∨ m = "DOWN" ∨ m = "LEFT" ∨ m = "RIGHT" ∨ m = "STAY")
    (hstart : ¬ (0 ≤ s.player_start_pos.1 ∧ s.player_start_pos.1 < s.grid_rows ∧
      0 ≤ s.player_start_pos.2 ∧ s.player_start_pos.2 < s.grid_cols))
    (hin : 0 ≤ (newPosOf s m).1 ∧ (newPosOf s m).1 < s.grid_rows ∧
      0 ≤ (newPosOf s m).2 ∧ (newPosOf s m).2 < s.grid_cols)
    (hc : is_collision (newPosOf s m) (reconstructDrones s.grid_rows s.grid_cols s.drones)
      = true) :
    (move s m).2 = Outcome.caughtBefore ∧ (move s m).1.drones = s.drones := by
  have hno : ¬ (s.game_over = true) := by simp [hover]
  have hvalid1 : ¬ (s.player_pos = s.player_start_pos ∧
      is_valid_move_from_start_box m s.player_start_pos s.grid_rows s.grid_cols = false) := by
    rintro ⟨hps, hval⟩
    rcases hm with rfl | rfl | rfl | rfl | rfl
    · have hin' : 0 ≤ s.player_start_pos.1 + -1 ∧
          s.player_start_pos.1 + -1 < s.grid_rows ∧
          0 ≤ s.player_start_pos.2 + 0 ∧ s.player_start_pos.2 + 0 < s.grid_cols := by
        rw [show newPosOf s "UP" = (s.player_pos.1 + -1, s.player_pos.2 + 0) from by
            unfold newPosOf; rw [show moveDirOf "UP" = (-1, 0) from by decide], hps] at hin
        exact hin
      unfold is_valid_move_from_start_box at hval
      rw [if_neg (show ¬("UP" = "STAY") from by decide),
        if_neg (show ¬(s.player_start_pos.1 = -1) from by omega),
        if_pos (show s.player_start_pos.1 = s.grid_rows from by omega)] at hval
      exact absurd hval (by decide)
    · have hin' : 0 ≤ s.player_start_pos.1 + 1 ∧
          s.player_start_pos.1 + 1 < s.grid_rows ∧
          0 ≤ s.player_start_pos.2 + 0 ∧ s.player_start_pos.2 + 0 < s.grid_cols := by
        rw [show newPosOf s "DOWN" = (s.player_pos.1 + 1, s.player_pos.2 + 0) from by
            unfold newPosOf; rw [show moveDirOf "DOWN" = (1, 0) from by decide], hps] at hin
        exact hin
      unfold is_valid_move_from_start_box at hval
      rw [if_neg (show ¬("DOWN" = "STAY") from by decide),
        if_pos (show s.player_start_pos.1 = -1 from by omega)] at hval
      exact absurd hval (by decide)
    · have hin' : 0 ≤ s.player_start_pos.1 + 0 ∧
          s.player_start_pos.1 + 0 < s.grid_rows ∧
          0 ≤ s.player_start_pos.2 + -1 ∧ s.player_start_pos.2 + -1 < s.grid_cols := by
        rw [show newPosOf s "LEFT" = (s.player_pos.1 + 0, s.player_pos.2 + -1) from by
            unfold newPosOf; rw [show moveDirOf "LEFT" = (0, -1) from by decide], hps] at hin
        exact hin
      unfold is_valid_move_from_start_box at hval
      rw [if_neg (show ¬("LEFT" = "STAY") from by decide),
        if_neg (show ¬(s.player_start_pos.1 = -1) from by omega),
        if_neg (show ¬(s.player_start_pos.1 = s.grid_rows) from by omega),
        if_neg (show ¬(s.player_start_pos.2 = -1) from by omega),
        if_pos (show s.player_start_pos.2 = s.grid_cols from by omega)] at hval
      exact absurd hval (by decide)
    · have hin' : 0 ≤ s.player_start_pos.1 + 0 ∧
          s.player_start_pos.1 + 0 < s.grid_rows ∧
          0 ≤ s.player_start_pos.2 + 1 ∧ s.player_start_pos.2 + 1 < s.grid_cols := by
        rw [show newPosOf s "RIGHT" = (s.player_pos.1 + 0, s.player_pos.2 + 1) from by
            unfold newPosOf; rw [show moveDirOf "RIGHT" = (0, 1) from by decide], hps] at hin
        exact hin
      unfold is_valid_move_from_start_box at hval
      rw [if_neg (show ¬("RIGHT" = "STAY") from by decide),
        if_neg (show ¬(s.player_start_pos.1 = -1) from by omega),
        if_neg (show ¬(s.player_start_pos.1 = s.grid_rows) from by omega),
        if_pos (show s.player_start_pos.2 = -1 from by omega)] at hval
      exact absurd hval (by decide)
    · have hin' : 0 ≤ s.player_start_pos.1 + 0 ∧
          s.player_start_pos.1 + 0 < s.grid_rows ∧
          0 ≤ s.player_start_pos.2 + 0 ∧ s.player_start_pos.2 + 0 < s.grid_cols := by
        rw [show newPosOf s "STAY" = (s.player_pos.1 + 0, s.player_pos.2 + 0) from by
            unfold newPosOf; rw [show moveDirOf "STAY" = (0, 0) from by decide], hps] at hin
        exact hin
      omega
  have hvalid2 : ¬ (newPosOf s m = s.player_start_pos ∧
      is_valid_move_from_start_box m s.player_start_pos s.grid_rows s.grid_cols = false) := by
    rintro ⟨hps, -⟩
    rw [hps] at hin
    exact hstart hin
  have hbounds : ¬ (¬(-1 ≤ (newPosOf s m).1 ∧ (newPosOf s m).1 < s.grid_rows) ∨
      ¬(-1 ≤ (newPosOf s m).2 ∧ (newPosOf s m).2 < s.grid_cols)) := by omega
  have hcond : (0 ≤ (newPosOf s m).1 ∧ (newPosOf s m).1 < s.grid_rows ∧
      0 ≤ (newPosOf s m).2 ∧ (newPosOf s m).2 < s.grid_cols) ∧
      is_collision (newPosOf s m) (reconstructDrones s.grid_rows s.grid_cols s.drones)
        = true := ⟨hin, hc⟩
  simp only [move, if_neg hno, if_neg hvalid1, if_neg hvalid2, if_neg hbounds]
  rw [if_pos hcond]
  exact ⟨rfl, rfl⟩

/-- A start-box state with a drone directly right of the player, for the C1
witness. -/
def c1wstate : GameState :=
  { grid_rows := 4, grid_cols := 4, player_start_pos := (-1, 0), player_pos := (1, 1),
    end_pos := (3, 3), turn := 3, max_turns := 200,
    drones := [{ symbol := "T1", position := (1, 2), route_index := 0, direction := 1,
                 sector_origin := (2, 2) }],
    game_over := false, won := false, message := "" }

/-- C1 witness: moving RIGHT onto the drone at (1,2) reports the
caught-before-advance outcome with the stored drones untouched. -/
theorem move_caught_before_sentinels_hold_witness :
    is_collision (newPosOf c1wstate "RIGHT")
        (reconstructDrones c1wstate.grid_rows c1wstate.grid_cols c1wstate.drones) = true ∧
      ((move c1wstate "RIGHT").2 = Outcome.caughtBefore ∧
        (move c1wstate "RIGHT").1.drones = c1wstate.drones) :=
  ⟨by decide,
    move_caught_before_sentinels_hold c1wstate "RIGHT" rfl (Or.inr (Or.inr (Or.inr (Or.inl rfl))))
      (by decide) (by decide) (by decide)⟩

/-- A state whose start position is inside the grid, for the C1
counterexample. -/
def c1state : GameState :=
  { grid_rows := 4, grid_cols := 4, player_start_pos := (0, 0), player_pos := (0, 0),
    end_pos := (3, 3), turn := 0, max_turns := 200,
    drones := [{ symbol := "T1", position := (0, 1), route_index := 0, direction := 1,
                 sector_origin := (2, 2) }],
    game_over := false, won := false, message := "" }

/-- C1 counterexample: with the start position (0,0) inside the grid, the
move RIGHT lands in bounds on the drone at (0,1) — the claim's hypothesis —
yet the handler rejects the move (invalid move from the start position)
instead of reporting a caught outcome. -/
theorem move_caught_before_cx :
    (0 ≤ (newPosOf c1state "RIGHT").1 ∧ (newPosOf c1state "RIGHT").1 < c1state.grid_rows ∧
      0 ≤ (newPosOf c1state "RIGHT").2 ∧ (newPosOf c1state "RIGHT").2 < c1state.grid_cols) ∧
    is_collision (newPosOf c1state "RIGHT")
      (reconstructDrones c1state.grid_rows c1state.grid_cols c1state.drones) = true ∧
    (move c1state "RIGHT").2 = Outcome.rejected := by
  decide

/-- C6: when the game is not already over, the move passes the start-box and
bounds validation, the stored drones are well formed (route index in range,
direction ±1 — exactly the states in which Python's route indexing cannot
raise during advancement), the player's post-move position is not on any
drone's pre-advance position, and after every drone advances the player's
position equals the goal cell with no drone on it, the step reports the won
outcome (game over with the win message), not a continue outcome. -/
theorem goal_after_advance_won (s : GameState) (m : String)
    (hover : s.game_over = false)
    (_hwf : ∀ d ∈ reconstructDrones s.grid_rows s.grid_cols s.drones,
      0 ≤ d.route_index ∧ d.route_index < (d.patrol_route.length : Int) ∧
        (d.direction = 1 ∨ d.direction = -1))
    (hv1 : ¬ (s.player_pos = s.player_start_pos ∧
      is_valid_move_from_start_box m s.player_start_pos s.grid_rows s.grid_cols = false))
    (hv2 : ¬ (newPosOf s m = s.player_start_pos ∧
      is_valid_move_from_start_box m s.player_start_pos s.grid_rows s.grid_cols = false))
    (hv3 : (-1 ≤ (newPosOf s m).1 ∧ (newPosOf s m).1 < s.grid_rows) ∧
      (-1 ≤ (newPosOf s m).2 ∧ (newPosOf s m).2 < s.grid_cols))
    (hnc1 : ¬ ((0 ≤ (newPosOf s m).1 ∧ (newPosOf s m).1 < s.grid_rows ∧
        0 ≤ (newPosOf s m).2 ∧ (newPosOf s m).2 < s.grid_cols) ∧
      is_collision (newPosOf s m) (reconstructDrones s.grid_rows s.grid_cols s.drones) = true))
    (hgoal : newPosOf s m = s.end_pos)
    (hnodrone : is_collision (newPosOf s m) (advancedDrones s) = false) :
    (move s m).2 = Outcome.won ∧ (move s m).1.game_over = true ∧
      (move s m).1.message = MSG_WON := by
  have hno : ¬ (s.game_over = true) := by simp [hover]
  have hbounds : ¬ (¬(-1 ≤ (newPosOf s m).1 ∧ (newPosOf s m).1 < s.grid_rows) ∨
      ¬(-1 ≤ (newPosOf s m).2 ∧ (newPosOf s m).2 < s.grid_cols)) := by omega
  have hnodrone' : is_collision (newPosOf s m)
      ((reconstructDrones s.grid_rows s.grid_cols s.drones).map Drone.move) = false := hnodrone
  have hnc2 : ¬ ((0 ≤ (newPosOf s m).1 ∧ (newPosOf s m).1 < s.grid_rows ∧
      0 ≤ (newPosOf s m).2 ∧ (newPosOf s m).2 < s.grid_cols) ∧
      is_collision (newPosOf s m)
        ((reconstructDrones s.grid_rows s.grid_cols s.drones).map Drone.move) = true) := by
    intro hcc
    rw [hnodrone'] at hcc
    exact absurd hcc.2 (by decide)
  simp only [move, if_neg hno, if_neg hv1, if_neg hv2, if_neg hbounds, if_neg hnc1,
    if_neg hnc2]
  rw [if_pos hgoal]
  exact ⟨rfl, rfl, rfl⟩

/-- A state one step from the goal, with a single drone far away, for the C6
witness. -/
def c6wstate : GameState :=
  { grid_rows := 4, grid_cols := 4, player_start_pos := (-1, 0), player_pos := (2, 3),
    end_pos := (3, 3), turn := 9, max_turns := 200,
    drones := [{ symbol := "T1", position := (0, 2), route_index := 0, direction := 1,
                 sector_origin := (0, 2) }],
    game_over := false, won := false, message := "" }

/-- C6 witness: moving DOWN from (2,3) reaches the goal (3,3) with no drone on
it after advancement, and the step reports the won outcome. -/
theorem goal_after_advance_won_witness :
    newPosOf c6wstate "DOWN" = c6wstate.end_pos ∧
      is_collision (newPosOf c6wstate "DOWN") (advancedDrones c6wstate) = false ∧
      ((move c6wstate "DOWN").2 = Outcome.won ∧ (move c6wstate "DOWN").1.game_over = true ∧
        (move c6wstate "DOWN").1.message = MSG_WON) :=
  ⟨by decide, by decide,
    goal_after_advance_won c6wstate "DOWN" rfl (by decide) (by decide) (by decide)
      (by decide) (by decide) (by decide) (by decide)⟩

/-- C7: on any grid with at least one row and one column, a computed patrol
route has the same length as its (non-empty) group template — so it is
non-empty — every route cell lies inside grid bounds, and each cell is the
per-axis clamp of the shifted template cell to the nearest in-bounds cell;
all five group templates are non-empty. -/
theorem patrol_route_clamped_in_bounds (sector_origin : Cell) (route_tpl : List Cell)
    (GRID_ROWS GRID_COLS : Int) (hR : 1 ≤ GRID_ROWS) (hC : 1 ≤ GRID_COLS) :
    (calculate_patrol_route sector_origin route_tpl GRID_ROWS GRID_COLS).length
        = route_tpl.length ∧
    (∀ q ∈ calculate_patrol_route sector_origin route_tpl GRID_ROWS GRID_COLS,
      0 ≤ q.1 ∧ q.1 < GRID_ROWS ∧ 0 ≤ q.2 ∧ q.2 < GRID_COLS) ∧
    calculate_patrol_route sector_origin route_tpl GRID_ROWS GRID_COLS
      = route_tpl.map (fun rel_pos =>
          (max 0 (min (GRID_ROWS - 1) (sector_origin.1 + rel_pos.1)),
           max 0 (min (GRID_COLS - 1) (sector_origin.2 + rel_pos.2)))) ∧
    (∀ g ∈ GROUP_DEFINITIONS, g.patrol_route ≠ []) := by
  have hfun : (fun rel_pos : Cell =>
      let abs_pos : Cell := (sector_origin.1 + rel_pos.1, sector_origin.2 + rel_pos.2)
      if 0 ≤ abs_pos.1 ∧ abs_pos.1 < GRID_ROWS ∧ 0 ≤ abs_pos.2 ∧ abs_pos.2 < GRID_COLS then
        abs_pos
      else
        (max 0 (min (GRID_ROWS - 1) abs_pos.1), max 0 (min (GRID_COLS - 1) abs_pos.2)))
      = (fun rel_pos : Cell =>
          ((max 0 (min (GRID_ROWS - 1) (sector_origin.1 + rel_pos.1)),
            max 0 (min (GRID_COLS - 1) (sector_origin.2 + rel_pos.2))) : Cell)) := by
    funext rel_pos
    by_cases hb : 0 ≤ sector_origin.1 + rel_pos.1 ∧ sector_origin.1 + rel_pos.1 < GRID_ROWS ∧
        0 ≤ sector_origin.2 + rel_pos.2 ∧ sector_origin.2 + rel_pos.2 < GRID_COLS
    · show (if _ then _ else _) = _
      rw [if_pos hb]
      have h1 : max 0 (min (GRID_ROWS - 1) (sector_origin.1 + rel_pos.1))
          = sector_origin.1 + rel_pos.1 := by omega
      have h2 : max 0 (min (GRID_COLS - 1) (sector_origin.2 + rel_pos.2))
          = sector_origin.2 + rel_pos.2 := by omega
      rw [h1, h2]
    · show (if _ then _ else _) = _
      rw [if_neg hb]
  have hmap : calculate_patrol_route sector_origin route_tpl GRID_ROWS GRID_COLS
      = route_tpl.map (fun rel_pos =>
          (max 0 (min (GRID_ROWS - 1) (sector_origin.1 + rel_pos.1)),
           max 0 (min (GRID_COLS - 1) (sector_origin.2 + rel_pos.2)))) := by
    unfold calculate_patrol_route
    rw [hfun]
  refine ⟨?_, ?_, hmap, by decide⟩
  · rw [hmap]
    exact List.length_map _ _
  · intro q hq
    rw [hmap, List.mem_map] at hq
    obtain ⟨rel_pos, -, rfl⟩ := hq
    refine ⟨by omega, by omega, by omega, by omega⟩

/-- C7 witness: the T5 template placed at origin (-1, 6) on a 3×7 grid — every
cell clamped into bounds, route length preserved. -/
theorem patrol_route_clamped_in_bounds_witness :
    (calculate_patrol_route (-1, 6) [(1, 0), (1, 1), (1, 2), (0, 1), (1, 1)] 3 7).length
        = ([(1, 0), (1, 1), (1, 2), (0, 1), (1, 1)] : List Cell).length ∧
      (∀ q ∈ calculate_patrol_route (-1, 6) [(1, 0), (1, 1), (1, 2), (0, 1), (1, 1)] 3 7,
        0 ≤ q.1 ∧ q.1 < 3 ∧ 0 ≤ q.2 ∧ q.2 < 7) :=
  ⟨(patrol_route_clamped_in_bounds (-1, 6) [(1, 0), (1, 1), (1, 2), (0, 1), (1, 1)] 3 7
      (by decide) (by decide)).1,
   (patrol_route_clamped_in_bounds (-1, 6) [(1, 0), (1, 1), (1, 2), (0, 1), (1, 1)] 3 7
      (by decide) (by decide)).2.1⟩

/-- `is_adjacent_to_player_start` from the source: Manhattan distance at most
`distance` (default 1) from the player start. -/
def is_adjacent_to_player_start (pos player_start_pos : Cell) (distance : Int := 1) : Bool :=
  decide (|pos.1 - player_start_pos.1| + |pos.2 - player_start_pos.2| ≤ distance)

/-- `max(r for r, c in shape)`; the 0 for an empty shape is unreachable (the
five group shapes are non-empty; Python would raise there). -/
def shapeMaxRow : List Cell → Int
  | [] => 0
  | p :: ps => ps.foldl (fun acc q => max acc q.1) p.1

/-- `max(c for r, c in shape)`, as in `shapeMaxRow`. -/
def shapeMaxCol : List Cell → Int
  | [] => 0
  | p :: ps => ps.foldl (fun acc q => max acc q.2) p.2

/-- The acceptance test of the placement loop:
`sector.isdisjoint(assigned_positions) and not any(is_adjacent_to_player_start(pos, PLAYER_START_POS) for pos in sector)`. -/
def sectorOK (sector assigned : List Cell) (player_start_pos : Cell) : Bool :=
  sector.all (fun q => decide (q ∉ assigned)) &&
    !(sector.any (fun q => is_adjacent_to_player_start q player_start_pos))

/-- The `for attempt in range(100)` origin search of `initialize_game`: each
attempt either skips (shape too large for the grid) or draws an origin row
and column from the stream (`random.randint` modelled by two arbitrary
draws), accepting the first origin whose sector passes `sectorOK`.  Returns
the accepted origin, if any, and the next stream counter. -/
def findOrigin (GRID_ROWS GRID_COLS : Int) (g : DroneGroup) (player_start_pos : Cell)
    (assigned : List Cell) (rng : Nat → Int) : Nat → Nat → Option Cell × Nat
  | ctr, 0 => (none, ctr)
  | ctr, fuel + 1 =>
    if GRID_ROWS - shapeMaxRow g.sector_shape ≤ 0 ∨
        GRID_COLS - shapeMaxCol g.sector_shape ≤ 0 then
      findOrigin GRID_ROWS GRID_COLS g player_start_pos assigned rng ctr fuel
    else
      if sectorOK (calculate_sector (rng ctr, rng (ctr + 1)) g.sector_shape)
          assigned player_start_pos then
        (some (rng ctr, rng (ctr + 1)), ctr + 2)
      else
        findOrigin GRID_ROWS GRID_COLS g player_start_pos assigned rng (ctr + 2) fuel

/-- The accumulating state of the placement loops of `initialize_game`. -/
structure PlaceSt where
  assigned : List Cell
  drones : List Drone
  warnings : Nat
  ctr : Nat

/-- The inner loop of `initialize_game` for one group: each slot either
places a drone (extending `assigned_positions` with its sector) or, after
the 100-attempt budget, records a warning and continues. -/
def placeGroupDrones (GRID_ROWS GRID_COLS : Int) (player_start_pos : Cell)
    (rng : Nat → Int) (g : DroneGroup) : Nat → PlaceSt → PlaceSt
  | 0, st => st
  | count + 1, st =>
    match findOrigin GRID_ROWS GRID_COLS g player_start_pos st.assigned rng st.ctr 100 with
    | (none, ctr') =>
      placeGroupDrones GRID_ROWS GRID_COLS player_start_pos rng g count
        { st with warnings := st.warnings + 1, ctr := ctr' }
    | (some origin, ctr') =>
      placeGroupDrones GRID_ROWS GRID_COLS player_start_pos rng g count
        { assigned := st.assigned ++ (mkDrone g origin GRID_ROWS GRID_COLS).sector
          drones := st.drones ++ [mkDrone g origin GRID_ROWS GRID_COLS]
          warnings := st.warnings
          ctr := ctr' }

/-- `drones_per_group`: `NUM_DRONES // NUM_DRONE_GROUPS` per group, the first
`NUM_DRONES % NUM_DRONE_GROUPS` entries incremented by one. -/
def dronesPerGroup (NUM_DRONES NUM_DRONE_GROUPS : Nat) : List Nat :=
  (List.range NUM_DRONE_GROUPS).map
    (fun i => NUM_DRONES / NUM_DRONE_GROUPS +
      if i < NUM_DRONES % NUM_DRONE_GROUPS then 1 else 0)

/-- The outer loop of `initialize_game`: the five groups in order, consuming
one quota entry per group.  Python indexes `drones_per_group[i]` for
`i = 0..4`, so running out of quota entries models the `IndexError` raised
when fewer than five groups are configured. -/
def placeAllGroups (GRID_ROWS GRID_COLS : Int) (player_start_pos : Cell) (rng : Nat → Int) :
    List Nat → List DroneGroup → PlaceSt → Option PlaceSt
  | _, [], st => some st
  | [], _ :: _, _ => none
  | count :: quotas, g :: groups, st =>
    placeAllGroups GRID_ROWS GRID_COLS player_start_pos rng quotas groups
      (placeGroupDrones GRID_ROWS GRID_COLS player_start_pos rng g count st)

/-- `initialize_game` (named `init_game` here): returns the player position,
end position, placed drones and the number of placement warnings printed;
`none` models the exceptions Python raises (division by zero for zero
groups, `IndexError` for fewer than five groups). -/
def init_game (GRID_ROWS GRID_COLS : Int) (PLAYER_START_POS END_POS : Cell)
    (NUM_DRONES NUM_DRONE_GROUPS : Nat) (rng : Nat → Int) :
    Option (Cell × Cell × List Drone × Nat) :=
  if NUM_DRONE_GROUPS = 0 then none
  else
    (placeAllGroups GRID_ROWS GRID_COLS PLAYER_START_POS rng
        (dronesPerGroup NUM_DRONES NUM_DRONE_GROUPS) GROUP_DEFINITIONS
        { assigned := [], drones := [], warnings := 0, ctr := 0 }).map
      (fun st => (PLAYER_START_POS, END_POS, st.drones, st.warnings))

/-- What an accepted sector guarantees: its cells avoid the assigned set and
stay at Manhattan distance greater than 1 from the player start. -/
theorem sectorOK_spec (sector assigned : List Cell) (player_start_pos : Cell)
    (h : sectorOK sector assigned player_start_pos = true) :
    (∀ q ∈ sector, q ∉ assigned) ∧
      (∀ q ∈ sector, 1 < |q.1 - player_start_pos.1| + |q.2 - player_start_pos.2|) := by
  unfold sectorOK at h
  rw [Bool.and_eq_true] at h
  obtain ⟨h1, h2⟩ := h
  refine ⟨fun q hq => of_decide_eq_true (List.all_eq_true.mp h1 q hq), fun q hq => ?_⟩
  rw [Bool.not_eq_true', List.any_eq_false] at h2
  have hq2 := h2 q hq
  unfold is_adjacent_to_player_start at hq2
  have hx : ¬ (|q.1 - player_start_pos.1| + |q.2 - player_start_pos.2| ≤ 1) :=
    fun hX => hq2 (decide_eq_true hX)
  omega

/-- An accepted origin passed the `sectorOK` test against the assigned set it
was searched with. -/
theorem findOrigin_some (GRID_ROWS GRID_COLS : Int) (g : DroneGroup)
    (player_start_pos : Cell) (assigned : List Cell) (rng : Nat → Int) :
    ∀ (fuel ctr ctr' : Nat) (origin : Cell),
      findOrigin GRID_ROWS GRID_COLS g player_start_pos assigned rng ctr fuel
        = (some origin, ctr') →
      sectorOK (calculate_sector origin g.sector_shape) assigned player_start_pos = true := by
  intro fuel
  induction fuel with
  | zero =>
    intro ctr ctr' origin h
    exact absurd (congrArg Prod.fst h) (by simp [findOrigin])
  | succ fuel ih =>
    intro ctr ctr' origin h
    unfold findOrigin at h
    split_ifs at h with h1 h2
    · exact ih ctr ctr' origin h
    · have hfst := congrArg Prod.fst h
      simp only [Option.some.injEq] at hfst
      rw [← hfst]
      exact h2
    · exact ih (ctr + 2) ctr' origin h

/-- The invariant carried through the placement loops: every placed sector is
recorded in the assigned set, the placed sectors are pairwise disjoint, and
all their cells are farther than Manhattan distance 1 from the player start. -/
def PlaceInv (player_start_pos : Cell) (st : PlaceSt) : Prop :=
  (∀ d ∈ st.drones, ∀ q ∈ d.sector, q ∈ st.assigned) ∧
  st.drones.Pairwise (fun d1 d2 => ∀ q ∈ d1.sector, q ∉ d2.sector) ∧
  (∀ d ∈ st.drones, ∀ q ∈ d.sector,
    1 < |q.1 - player_start_pos.1| + |q.2 - player_start_pos.2|)

/-- The per-group placement loop preserves the invariant, and each requested
slot yields either a placed drone or a warning. -/
theorem placeGroupDrones_inv (GRID_ROWS GRID_COLS : Int) (player_start_pos : Cell)
    (rng : Nat → Int) (g : DroneGroup) :
    ∀ (count : Nat) (st : PlaceSt), PlaceInv player_start_pos st →
      PlaceInv player_start_pos
          (placeGroupDrones GRID_ROWS GRID_COLS player_start_pos rng g count st) ∧
        (placeGroupDrones GRID_ROWS GRID_COLS player_start_pos rng g count st).drones.length
            + (placeGroupDrones GRID_ROWS GRID_COLS player_start_pos rng g count st).warnings
          = st.drones.length + st.warnings + count := by
  intro count
  induction count with
  | zero =>
    intro st hst
    exact ⟨hst, by unfold placeGroupDrones; omega⟩
  | succ count ih =>
    intro st hst
    unfold placeGroupDrones
    cases hfo : findOrigin GRID_ROWS GRID_COLS g player_start_pos st.assigned rng st.ctr 100 with
    | mk o ctr' =>
      cases o with
      | none =>
        obtain ⟨hinv, hcount⟩ :=
          ih { st with warnings := st.warnings + 1, ctr := ctr' }
            ⟨hst.1, hst.2.1, hst.2.2⟩
        exact ⟨hinv, by simp only [hcount]; omega⟩
      | some origin =>
        obtain ⟨hdisj, hfar⟩ := sectorOK_spec _ _ _
          (findOrigin_some GRID_ROWS GRID_COLS g player_start_pos st.assigned rng
            100 st.ctr ctr' origin hfo)
        have hsec : (mkDrone g origin GRID_ROWS GRID_COLS).sector
            = calculate_sector origin g.sector_shape := rfl
        obtain ⟨hmem, hpair, hfarinv⟩ := hst
        have hinv' : PlaceInv player_start_pos
            { assigned := st.assigned ++ (mkDrone g origin GRID_ROWS GRID_COLS).sector
              drones := st.drones ++ [mkDrone g origin GRID_ROWS GRID_COLS]
              warnings := st.warnings
              ctr := ctr' } := by
          refine ⟨?_, ?_, ?_⟩
          · intro d hd q hq
            rcases List.mem_append.mp hd with hd | hd
            · exact List.mem_append_left _ (hmem d hd q hq)
            · rw [List.mem_singleton.mp hd] at hq
              exact List.mem_append_right _ hq
          · rw [List.pairwise_append]
            refine ⟨hpair, List.pairwise_singleton _ _, ?_⟩
            intro d1 hd1 d2 hd2 q hq1 hq2
            rw [List.mem_singleton.mp hd2, hsec] at hq2
            exact hdisj q hq2 (hmem d1 hd1 q hq1)
          · intro d hd q hq
            rcases List.mem_append.mp hd with hd | hd
            · exact hfarinv d hd q hq
            · rw [List.mem_singleton.mp hd, hsec] at hq
              exact hfar q hq
        obtain ⟨hinv, hcount⟩ := ih _ hinv'
        refine ⟨hinv, ?_⟩
        rw [hcount]
        simp only [List.length_append, List.length_singleton]
        omega

/-- The outer group loop preserves the invariant and accounts each consumed
quota entry as placed drones plus warnings. -/
theorem placeAllGroups_inv (GRID_ROWS GRID_COLS : Int) (player_start_pos : Cell)
    (rng : Nat → Int) :
    ∀ (groups : List DroneGroup) (quotas : List Nat) (st st' : PlaceSt),
      placeAllGroups GRID_ROWS GRID_COLS player_start_pos rng quotas groups st = some st' →
      PlaceInv player_start_pos st →
      PlaceInv player_start_pos st' ∧
        st'.drones.length + st'.warnings
          = st.drones.length + st.warnings + (quotas.take groups.length).sum := by
  intro groups
  induction groups with
  | nil =>
    intro quotas st st' h hst
    unfold placeAllGroups at h
    cases quotas <;> simp only [Option.some.injEq] at h <;> rw [← h] <;>
      exact ⟨hst, by simp⟩
  | cons g groups ih =>
    intro quotas st st' h hst
    cases quotas with
    | nil => exact absurd h (by unfold placeAllGroups; simp)
    | cons count quotas =>
      unfold placeAllGroups at h
      obtain ⟨hinv1, hcount1⟩ :=
        placeGroupDrones_inv GRID_ROWS GRID_COLS player_start_pos rng g count st hst
      obtain ⟨hinv', hcount'⟩ := ih quotas _ st' h hinv1
      refine ⟨hinv', ?_⟩
      rw [hcount', hcount1]
      simp only [List.length_cons, List.take_succ_cons, List.sum_cons]
      omega

/-- C9: whenever `initialize_game` returns (no exception), the sectors of the
placed drones are pairwise disjoint, every sector cell is at Manhattan
distance greater than 1 from the player start, and every requested drone
slot was either placed or skipped with a warning (placed + warnings equals
the quota consumed by the five groups), so a placement shortfall is
non-fatal and the successfully placed drones are returned. -/
theorem init_sectors_disjoint_far (GRID_ROWS GRID_COLS : Int)
    (PLAYER_START_POS END_POS : Cell) (NUM_DRONES NUM_DRONE_GROUPS : Nat)
    (rng : Nat → Int) (p e : Cell) (ds : List Drone) (w : Nat)
    (h : init_game GRID_ROWS GRID_COLS PLAYER_START_POS END_POS NUM_DRONES
      NUM_DRONE_GROUPS rng = some (p, e, ds, w)) :
    ds.Pairwise (fun d1 d2 => ∀ q ∈ d1.sector, q ∉ d2.sector) ∧
      (∀ d ∈ ds, ∀ q ∈ d.sector,
        1 < |q.1 - PLAYER_START_POS.1| + |q.2 - PLAYER_START_POS.2|) ∧
      ds.length + w
        = ((dronesPerGroup NUM_DRONES NUM_DRONE_GROUPS).take GROUP_DEFINITIONS.length).sum := by
  unfold init_game at h
  split_ifs at h with hG
  cases hall : placeAllGroups GRID_ROWS GRID_COLS PLAYER_START_POS rng
      (dronesPerGroup NUM_DRONES NUM_DRONE_GROUPS) GROUP_DEFINITIONS
      { assigned := [], drones := [], warnings := 0, ctr := 0 } with
  | none => rw [hall] at h; exact absurd h (by simp)
  | some st' =>
    rw [hall] at h
    simp only [Option.map_some', Option.some.injEq, Prod.mk.injEq] at h
    obtain ⟨-, -, hds, hw⟩ := h
    obtain ⟨⟨-, hpair, hfar⟩, hcount⟩ :=
      placeAllGroups_inv GRID_ROWS GRID_COLS PLAYER_START_POS rng GROUP_DEFINITIONS
        (dronesPerGroup NUM_DRONES NUM_DRONE_GROUPS) _ st' hall
        ⟨fun d hd => absurd hd (List.not_mem_nil d), List.Pairwise.nil,
          fun d hd => absurd hd (List.not_mem_nil d)⟩
    rw [← hds, ← hw]
    exact ⟨hpair, hfar, by rw [hcount]; simp⟩

/-- The two drones placed by the C9 witness initialization (T1 at origin
(2,2) and T2 at origin (5,5) on an 8×8 grid). -/
def c9drones : List Drone :=
  [mkDrone { symbol := "T1", sector_shape := [(0, 0), (0, 1), (1, 0), (1, 1)],
             patrol_route := [(0, 0), (0, 1), (1, 1), (1, 0)] } (2, 2) 8 8,
   mkDrone { symbol := "T2", sector_shape := [(0, 0), (0, 1), (0, 2)],
             patrol_route := [(0, 0), (0, 1), (0, 2), (0, 1)] } (5, 5) 8 8]

/-- C9 witness: a concrete successful initialization (8×8 grid, 2 drones,
5 groups, a fixed draw stream) places two disjoint sectors away from the
player start, with placed + warnings equal to the requested slots. -/
theorem init_sectors_disjoint_far_witness :
    init_game 8 8 (0, 0) (7, 7) 2 5 (fun n => if n < 2 then 2 else 5)
        = some ((0, 0), (7, 7), c9drones, 0) ∧
      (c9drones.Pairwise (fun d1 d2 => ∀ q ∈ d1.sector, q ∉ d2.sector) ∧
        (∀ d ∈ c9drones, ∀ q ∈ d.sector, 1 < |q.1 - (0 : Int)| + |q.2 - (0 : Int)|) ∧
        c9drones.length + 0 = ((dronesPerGroup 2 5).take GROUP_DEFINITIONS.length).sum) :=
  ⟨by decide,
    init_sectors_disjoint_far 8 8 (0, 0) (7, 7) 2 5 (fun n => if n < 2 then 2 else 5)
      (0, 0) (7, 7) c9drones 0 (by decide)⟩
